import Mathlib

/-!
Shallow embedding of the arrowcargo freight-marketplace backend
(`app/crud.py`, `app/routes/bids.py`, `app/routes/orders.py`,
`app/routes/track.py`, `app/websocket_manager.py`, `app/utils.py`,
`app/models.py`), together with theorems settling the frozen claims
about the order/bid lifecycle, the websocket connection registry and
the location-ingestion pipeline.

Modelling conventions:
* SQLAlchemy tables become Lean lists of structures; `query.filter(...).first()`
  becomes `List.find?`, `.all()` plus a mutation loop becomes a conditional
  `List.map`, and mutating the single row returned by `.first()` becomes
  `updateFirst`.
* Python `float` prices and coordinates are idealised as `Rat`; every
  discrepancy exhibited below is a structural one (e.g. rounding that the
  code simply does not perform), not a floating-point artefact.
* Python dicts (`websocket_manager.py`) become association lists with
  unique keys; `defaultdict(list)` lookup is `lookupD`, which yields `[]`
  for an absent key.
* A websocket connection is identified by a `Nat`; whether `send_json`
  raises on a given connection is abstracted as a predicate
  `fails : Nat → Bool` supplied to each broadcast function.
-/

set_option autoImplicit false

universe u

/-- Replace the first element of `l` satisfying `p` by its image under `f`
(the effect of mutating the single object returned by a SQLAlchemy
`.filter(...).first()` query). -/
def updateFirst {α : Type u} (p : α → Bool) (f : α → α) : List α → List α
  | [] => []
  | a :: as => if p a then f a :: as else a :: updateFirst p f as

theorem length_updateFirst {α : Type u} (p : α → Bool) (f : α → α) (l : List α) :
    (updateFirst p f l).length = l.length := by
  induction l with
  | nil => rfl
  | cons a as ih =>
    by_cases h : p a <;> simp [updateFirst, h, ih]

theorem find?_updateFirst {α : Type u} (p : α → Bool) (f : α → α) (l : List α)
    (hf : ∀ a, p (f a) = p a) :
    (updateFirst p f l).find? p = (l.find? p).map f := by
  induction l with
  | nil => rfl
  | cons a as ih =>
    by_cases h : p a
    · simp [updateFirst, h, List.find?_cons, hf]
    · simp [updateFirst, h, List.find?_cons, ih]

theorem find?_ne_updateFirst {α : Type u} (p q : α → Bool) (f : α → α) (l : List α)
    (hf : ∀ a, q (f a) = false) (hl : ∀ a, p a → q a = false) :
    (updateFirst p f l).find? q = l.find? q := by
  induction l with
  | nil => rfl
  | cons a as ih =>
    by_cases h : p a
    · simp [updateFirst, h, List.find?_cons, hf, hl a h]
    · by_cases hq : q a <;> simp [updateFirst, h, List.find?_cons, hq, ih]

theorem getElem?_updateFirst_of_not {α : Type u} (p : α → Bool) (f : α → α)
    (l : List α) (i : Nat) (a : α) (ha : l[i]? = some a) (h : p a = false) :
    (updateFirst p f l)[i]? = some a := by
  induction l generalizing i with
  | nil => simp at ha
  | cons x as ih =>
    cases hpx : p x with
    | true =>
      cases i with
      | zero =>
        simp only [List.getElem?_cons_zero, Option.some.injEq] at ha
        rw [← ha, hpx] at h
        exact absurd h (by simp)
      | succ n =>
        simp only [updateFirst, hpx, if_true]
        simpa using ha
    | false =>
      cases i with
      | zero =>
        simp only [List.getElem?_cons_zero, Option.some.injEq] at ha
        subst ha
        simp [updateFirst, hpx]
      | succ n =>
        simp only [updateFirst, hpx, Bool.false_eq_true, if_false,
          List.getElem?_cons_succ]
        exact ih n (by simpa using ha)

/-- Association-list lookup (Python `dict.__getitem__` / `in` test). -/
def lookupA {β : Type u} (k : Nat) : List (Nat × β) → Option β
  | [] => none
  | (k', v) :: rest => if k' == k then some v else lookupA k rest

/-- Association-list write (Python `dict.__setitem__`). -/
def setA {β : Type u} (k : Nat) (v : β) : List (Nat × β) → List (Nat × β)
  | [] => [(k, v)]
  | (k', v') :: rest => if k' == k then (k', v) :: rest else (k', v') :: setA k v rest

/-- Association-list key deletion (Python `del d[k]`): the key is gone from
the map afterwards. -/
def delA {β : Type u} (k : Nat) : List (Nat × β) → List (Nat × β)
  | [] => []
  | (k', v') :: rest => if k' == k then delA k rest else (k', v') :: delA k rest

/-- `defaultdict(list)` read: an absent key reads as the empty list. -/
def lookupD (m : List (Nat × List Nat)) (k : Nat) : List Nat :=
  (lookupA k m).getD []

/- ## Data model (`app/models.py`) -/

/-- `models.OrderStatus`. -/
inductive OrderStatus where
  | draft | searching | driver_assigned | loading | en_route
  | unloading | completed | cancelled | paid
deriving DecidableEq, Repr

/-- `models.BidStatus`. -/
inductive BidStatus where
  | pending | accepted | rejected | cancelled
deriving DecidableEq, Repr

/-- `models.VerificationStatus`. -/
inductive VerificationStatus where
  | pending | verified | rejected
deriving DecidableEq, Repr

/-- `models.UserRole`. -/
inductive UserRole where
  | client | driver | admin
deriving DecidableEq, Repr

/-- The authenticated caller of a route (`current_user`): its id and role. -/
structure Actor where
  id : Nat
  role : UserRole
deriving DecidableEq, Repr

/-- `models.Order` (the columns the lifecycle engine reads or writes). -/
structure Order where
  id : Nat
  order_number : String
  client_id : Nat
  driver_id : Option Nat
  status : OrderStatus
  cargo_weight : Rat
  cargo_volume : Rat
  desired_price : Rat
  final_price : Option Rat
  platform_fee : Option Rat
  order_amount : Option Rat
  updated_at : Nat
deriving DecidableEq, Repr

/-- `models.Bid`. -/
structure Bid where
  id : Nat
  order_id : Nat
  driver_id : Nat
  proposed_price : Rat
  message : Option String
  status : BidStatus
deriving DecidableEq, Repr

/-- `models.DriverProfile` (the columns the bidding and tracking code reads
or writes). -/
structure DriverProfile where
  user_id : Nat
  carrying_capacity : Rat
  volume : Rat
  verification_status : VerificationStatus
  current_location_lat : Option Rat
  current_location_lng : Option Rat
  is_online : Bool
deriving DecidableEq, Repr

/-- `models.LocationUpdate`. -/
structure LocationUpdate where
  id : Nat
  driver_id : Nat
  order_id : Option Nat
  lat : Rat
  lng : Rat
  accuracy : Option Rat
  speed : Option Rat
  heading : Option Rat
deriving DecidableEq, Repr

/-- The persisted state the claims touch (orders, bids, driver profiles,
location-update history). -/
structure DB where
  orders : List Order
  bids : List Bid
  profiles : List DriverProfile
  locations : List LocationUpdate
deriving DecidableEq, Repr

/- ## Order/bid CRUD (`app/crud.py`) -/

/-- `crud.get_order`. -/
def get_order (db : DB) (order_id : Nat) : Option Order :=
  db.orders.find? (fun o => o.id == order_id)

/-- `crud.get_bid`. -/
def get_bid (db : DB) (bid_id : Nat) : Option Bid :=
  db.bids.find? (fun b => b.id == bid_id)

/-- `crud.get_driver_profile`. -/
def get_driver_profile (db : DB) (user_id : Nat) : Option DriverProfile :=
  db.profiles.find? (fun p => p.user_id == user_id)

/-- `crud.accept_bid`: look the bid up, mark it accepted, assign the order's
driver / status / money fields, then set every *other* bid row on the same
order (the query filters only on `order_id` and `id != bid_id`, not on the
bid's current status) to `rejected`.  Returns the refreshed accepted bid
and the new store. -/
def accept_bid (db : DB) (bid_id : Nat) : Option (Bid × DB) :=
  match get_bid db bid_id with
  | none => none
  | some bid =>
    let bids1 := updateFirst (fun b => b.id == bid_id)
      (fun b => { b with status := .accepted }) db.bids
    let fee : Rat := bid.proposed_price * (5 / 100)
    let orders1 := updateFirst (fun o => o.id == bid.order_id)
      (fun o => { o with
        driver_id := some bid.driver_id
        status := .driver_assigned
        final_price := some bid.proposed_price
        platform_fee := some fee
        order_amount := some (bid.proposed_price - fee) }) db.orders
    let bids2 := bids1.map (fun b =>
      if b.order_id == bid.order_id && b.id != bid_id then
        { b with status := .rejected } else b)
    some ({ bid with status := .accepted }, { db with orders := orders1, bids := bids2 })

/-- The distinct failures of `routes/bids.py: accept_bid`, in the order the
route checks them. -/
inductive AcceptBidError where
  | bid_not_found | order_not_found | not_order_owner
  | bid_not_pending | order_not_searching | internal_error
deriving DecidableEq, Repr

/-- `routes/bids.py: accept_bid` — the guards (bid exists, order exists,
a client caller must own the order, bid still `pending`, order still
`searching`) followed by `crud.accept_bid`. -/
def route_accept_bid (db : DB) (actor : Actor) (bid_id : Nat) :
    Except AcceptBidError (Bid × DB) :=
  match get_bid db bid_id with
  | none => .error .bid_not_found
  | some bid =>
    match get_order db bid.order_id with
    | none => .error .order_not_found
    | some order =>
      if actor.role = .client ∧ order.client_id ≠ actor.id then
        .error .not_order_owner
      else if bid.status ≠ .pending then .error .bid_not_pending
      else if order.status ≠ .searching then .error .order_not_searching
      else
        match accept_bid db bid_id with
        | none => .error .internal_error
        | some r => .ok r

theorem find?_map_of_pres {α : Type u} (p : α → Bool) (g : α → α) (l : List α)
    (hg : ∀ a, p (g a) = p a) :
    (l.map g).find? p = (l.find? p).map g := by
  induction l with
  | nil => rfl
  | cons a as ih =>
    cases hpa : p a with
    | true => simp [List.find?_cons, hg, hpa]
    | false => simp [List.find?_cons, hg, hpa, ih]

/-- The complete effect of one successful accept-bid call (claim C1 as
amended): the target bid was `pending` and its order `searching`; afterwards
the bid is `accepted`; the order carries the bid's driver, status
`driver_assigned` and the bid's price with the 5% fee split; and every
*other* bid row on the same order — whatever its previous status, `cancelled`
included — is set to `rejected`, while bids on other orders are untouched. -/
def AcceptEffects (db : DB) (bid_id : Nat) (b : Bid) (db' : DB) : Prop :=
  ∃ bid0 o0,
    get_bid db bid_id = some bid0 ∧
    bid0.status = BidStatus.pending ∧
    b = { bid0 with status := BidStatus.accepted } ∧
    get_bid db' bid_id = some { bid0 with status := BidStatus.accepted } ∧
    get_order db bid0.order_id = some o0 ∧
    o0.status = OrderStatus.searching ∧
    get_order db' bid0.order_id = some { o0 with
      driver_id := some bid0.driver_id
      status := OrderStatus.driver_assigned
      final_price := some bid0.proposed_price
      platform_fee := some (bid0.proposed_price * (5 / 100))
      order_amount := some (bid0.proposed_price - bid0.proposed_price * (5 / 100)) } ∧
    db'.bids.length = db.bids.length ∧
    (∀ (i : Nat) (bi : Bid), db.bids[i]? = some bi → bi.id ≠ bid_id →
      db'.bids[i]? = some (if bi.order_id = bid0.order_id
        then { bi with status := BidStatus.rejected } else bi))

theorem find?_updateFirst_map {α : Type u} (p : α → Bool) (f g : α → α)
    (l : List α) (hf : ∀ a, p (f a) = p a) (hg : ∀ a, p (g a) = p a)
    (a0 : α) (h : l.find? p = some a0) :
    ((updateFirst p f l).map g).find? p = some (g (f a0)) := by
  rw [find?_map_of_pres _ _ _ hg, find?_updateFirst _ _ _ hf, h]
  rfl

theorem find?_updateFirst_self {α : Type u} (p : α → Bool) (f : α → α)
    (l : List α) (hf : ∀ a, p (f a) = p a)
    (a0 : α) (h : l.find? p = some a0) :
    (updateFirst p f l).find? p = some (f a0) := by
  rw [find?_updateFirst _ _ _ hf, h]
  rfl

theorem accept_sweep_getElem (bids : List Bid) (bid_id oid : Nat) (i : Nat) (bi : Bid)
    (hbi : bids[i]? = some bi) (hne : bi.id ≠ bid_id) :
    (List.map (fun b => if b.order_id == oid && b.id != bid_id then
        { b with status := BidStatus.rejected } else b)
      (updateFirst (fun b => b.id == bid_id)
        (fun b => { b with status := BidStatus.accepted }) bids))[i]?
    = some (if bi.order_id = oid then { bi with status := BidStatus.rejected } else bi) := by
  rw [List.getElem?_map,
    getElem?_updateFirst_of_not _ _ _ _ _ hbi (by simpa using hne)]
  by_cases hc : bi.order_id = oid <;> simp [hc, hne]

theorem accept_route_ok_effects (db : DB) (actor : Actor) (bid_id : Nat)
    (b : Bid) (db' : DB)
    (h : route_accept_bid db actor bid_id = .ok (b, db')) :
    AcceptEffects db bid_id b db' := by
  unfold route_accept_bid at h
  split at h
  next => cases h
  next bid0 hb =>
    split at h
    next => cases h
    next o0 ho =>
      split at h
      next => cases h
      next h1 =>
        split at h
        next => cases h
        next h2 =>
          split at h
          next => cases h
          next h3 =>
            split at h
            next => cases h
            next r hacc =>
              injection h with h'
              subst h'
              unfold accept_bid at hacc
              rw [hb] at hacc
              simp only [Option.some.injEq, Prod.mk.injEq] at hacc
              obtain ⟨hbeq, hdbeq⟩ := hacc
              have hb' : db.bids.find? (fun x => x.id == bid_id) = some bid0 := hb
              have ho' : db.orders.find? (fun o => o.id == bid0.order_id) = some o0 := ho
              have hp : bid0.id = bid_id := by simpa using List.find?_some hb'
              refine ⟨bid0, o0, hb, not_not.mp h2, hbeq.symm, ?_, ho,
                not_not.mp h3, ?_, ?_, ?_⟩
              · -- the accepted bid after the write-back
                rw [← hdbeq]
                have hres := find?_updateFirst_map (fun x : Bid => x.id == bid_id)
                  (fun b => { b with status := BidStatus.accepted })
                  (fun b => if b.order_id == bid0.order_id && b.id != bid_id then
                    { b with status := BidStatus.rejected } else b)
                  db.bids (fun a => rfl)
                  (fun a => by
                    by_cases hc : (a.order_id == bid0.order_id && a.id != bid_id) = true <;>
                      simp [hc])
                  bid0 hb'
                exact hres.trans (by simp [hp])
              · -- the order after the write-back
                rw [← hdbeq]
                exact find?_updateFirst_self (fun o : Order => o.id == bid0.order_id)
                  (fun o => { o with
                    driver_id := some bid0.driver_id
                    status := OrderStatus.driver_assigned
                    final_price := some bid0.proposed_price
                    platform_fee := some (bid0.proposed_price * (5 / 100))
                    order_amount := some (bid0.proposed_price - bid0.proposed_price * (5 / 100)) })
                  db.orders (fun a => rfl) o0 ho'
              · -- no bid row is created or dropped
                rw [← hdbeq]
                exact Eq.trans (List.length_map _ _) (length_updateFirst _ _ _)
              · -- every other bid row, elementwise
                intro i bi hbi hne
                rw [← hdbeq]
                exact accept_sweep_getElem db.bids bid_id bid0.order_id i bi hbi hne

/- ## Concrete states for claims C1 and C2 -/

/-- A client actor who owns the concrete orders below. -/
def clientActor : Actor := { id := 100, role := .client }

/-- Concrete `searching` order (client 100). -/
def orderC1 : Order :=
  { id := 1, order_number := "CPAA000001", client_id := 100, driver_id := none,
    status := .searching, cargo_weight := 1, cargo_volume := 1,
    desired_price := 100, final_price := none, platform_fee := none,
    order_amount := none, updated_at := 0 }

/-- Pending bid of driver 201 at price 90 on order 1. -/
def bidC1A : Bid :=
  { id := 1, order_id := 1, driver_id := 201, proposed_price := 90,
    message := none, status := .pending }

/-- A bid of driver 202 on order 1 that was cancelled before acceptance. -/
def bidC1B : Bid :=
  { id := 2, order_id := 1, driver_id := 202, proposed_price := 100,
    message := none, status := .cancelled }

/-- Store with the searching order, one pending and one cancelled bid. -/
def dbC1 : DB :=
  { orders := [orderC1], bids := [bidC1A, bidC1B], profiles := [], locations := [] }

/-- The store after client 100 accepts bid 1 (computed by hand; checked
against `route_accept_bid` below). -/
def dbC1' : DB :=
  { orders := [{ orderC1 with
      driver_id := some 201, status := .driver_assigned,
      final_price := some 90, platform_fee := some (9 / 2),
      order_amount := some (171 / 2) }],
    bids := [{ bidC1A with status := .accepted }, { bidC1B with status := .rejected }],
    profiles := [], locations := [] }

/-- C1: the claim states that bids on the order that were not `pending`
(e.g. `cancelled`) keep their previous status across an accept.  False:
`crud.accept_bid` filters the sibling sweep only on `order_id` and
`id != bid_id`, so accepting bid 1 also turns the *cancelled* bid 2 into
`rejected`. -/
theorem C1_counterexample :
    route_accept_bid dbC1 clientActor 1
      = .ok ({ bidC1A with status := .accepted }, dbC1')
    ∧ (get_bid dbC1 2).map Bid.status = some BidStatus.cancelled
    ∧ (get_bid dbC1' 2).map Bid.status = some BidStatus.rejected := by
  refine ⟨?_, by rfl, by rfl⟩
  simp only [route_accept_bid, get_bid, get_order, accept_bid, dbC1, dbC1',
    clientActor, orderC1, bidC1A, bidC1B, updateFirst, List.find?]
  norm_num

/-- C1 (amended): a successful AcceptBid on a pending bid of a `searching`
order marks that bid `accepted`, sets the order's driver, status
`driver_assigned` and final price to the bid's price, and sets **every**
other bid row on the same order to `rejected` regardless of its previous
status (a previously `cancelled` sibling is also rewritten to `rejected`);
bids of other orders are untouched. -/
theorem C1_accept_bid_effects (db : DB) (actor : Actor) (bid_id : Nat)
    (b : Bid) (db' : DB)
    (h : route_accept_bid db actor bid_id = .ok (b, db')) :
    AcceptEffects db bid_id b db' :=
  accept_route_ok_effects db actor bid_id b db' h

/-- Witness for C1 at the concrete store `dbC1`. -/
theorem C1_witness :
    AcceptEffects dbC1 1 { bidC1A with status := BidStatus.accepted } dbC1' :=
  C1_accept_bid_effects dbC1 clientActor 1
    { bidC1A with status := BidStatus.accepted } dbC1' (by
      simp only [route_accept_bid, get_bid, get_order, accept_bid, dbC1, dbC1',
        clientActor, orderC1, bidC1A, bidC1B, updateFirst, List.find?]
      norm_num)

/- ## Claim C2: fee arithmetic -/

/-- The rounding operator the claim prescribes (`round(x, 2)`): round to the
nearest hundredth.  The counterexample below does not sit on a tie, so every
tie-breaking convention (half-even as in Python, half-up, ...) yields the
same value. -/
def specRound2 (q : Rat) : Rat := (round (q * 100) : Int) / 100

/-- A pending bid at price 100.01 on order 1 (for the C2 counterexample). -/
def bidC2 : Bid :=
  { id := 1, order_id := 1, driver_id := 201, proposed_price := 10001 / 100,
    message := none, status := .pending }

/-- Store with the searching order and the 100.01 bid. -/
def dbC2 : DB :=
  { orders := [orderC1], bids := [bidC2], profiles := [], locations := [] }

/-- C2 counterexample: the claim says the stored platform_fee equals
round(P * 0.05, 2).  False: `crud.accept_bid` stores `proposed_price * 0.05`
unrounded, so accepting a bid of price 100.01 stores fee 5.0005 while
round(100.01 * 0.05, 2) = 5.00. -/
theorem C2_counterexample :
    ((route_accept_bid dbC2 clientActor 1).toOption.bind
      (fun r => (get_order r.2 1).bind Order.platform_fee)) = some (10001 / 2000)
    ∧ specRound2 ((10001 / 100) * (5 / 100)) = 5
    ∧ (10001 / 2000 : Rat) ≠ 5 := by
  refine ⟨?_, ?_, by norm_num⟩
  · simp only [route_accept_bid, get_bid, get_order, accept_bid, dbC2,
      clientActor, orderC1, bidC2, updateFirst, List.find?]
    norm_num [Except.toOption]
  · rw [specRound2, round_eq]
    have hfloor : ⌊((10001 : Rat) / 100 * (5 / 100) * 100 + 1 / 2)⌋ = 500 := by
      rw [Int.floor_eq_iff]
      constructor <;> norm_num
    rw [hfloor]
    norm_num

/-- C2 (amended): at acceptance the order's platform_fee is set to exactly
`proposed_price * 0.05` — no rounding to two decimals is performed — and
order_amount to `proposed_price − platform_fee`.  (For P = 90 this still
gives 4.5 and 85.5, as the claim's concrete scenario expects; see the
witness.) -/
theorem C2_fee_arithmetic (db : DB) (actor : Actor) (bid_id : Nat)
    (b : Bid) (db' : DB)
    (h : route_accept_bid db actor bid_id = .ok (b, db')) :
    ∃ bid0 o', get_bid db bid_id = some bid0 ∧
      get_order db' bid0.order_id = some o' ∧
      o'.platform_fee = some (bid0.proposed_price * (5 / 100)) ∧
      o'.order_amount = some (bid0.proposed_price - bid0.proposed_price * (5 / 100)) := by
  obtain ⟨bid0, o0, hb, hpend, hbe, hbid', hord, hsearch, hord', hlen, hsweep⟩ :=
    accept_route_ok_effects db actor bid_id b db' h
  exact ⟨bid0, _, hb, hord', rfl, rfl⟩

/-- Witness for C2 at price 90: the stored fee is 4.5 and the driver
amount 85.5. -/
theorem C2_witness :
    (∃ bid0 o', get_bid dbC1 1 = some bid0 ∧
      get_order dbC1' bid0.order_id = some o' ∧
      o'.platform_fee = some (bid0.proposed_price * (5 / 100)) ∧
      o'.order_amount = some (bid0.proposed_price - bid0.proposed_price * (5 / 100)))
    ∧ (get_order dbC1' 1).bind Order.platform_fee = some (9 / 2)
    ∧ (get_order dbC1' 1).bind Order.order_amount = some (171 / 2) :=
  ⟨C2_fee_arithmetic dbC1 clientActor 1
      { bidC1A with status := BidStatus.accepted } dbC1' (by
        simp only [route_accept_bid, get_bid, get_order, accept_bid, dbC1, dbC1',
          clientActor, orderC1, bidC1A, bidC1B, updateFirst, List.find?]
        norm_num),
    by rfl, by rfl⟩

/- ## Claim C3: PlaceBid (`routes/bids.py: create_bid`, `crud.create_bid`) -/

/-- The distinct rejection reasons of `routes/bids.py: create_bid`, in the
order the route checks them (each is a distinct HTTP detail message in the
source). -/
inductive PlaceBidError where
  | driver_not_verified | order_not_found | order_not_open
  | own_order | already_bid | over_capacity | crud_rejected
deriving DecidableEq, Repr

/-- `crud.create_bid`: re-checks that the order exists and is `searching`
and that this driver has no existing bid row on the order (the query
filters only on `order_id` and `driver_id`, not on status), then inserts a
new bid; the model column default gives it status `pending`.  `none` models
the `ValueError` raises. -/
def crud_create_bid (db : DB) (order_id driver_id : Nat) (price : Rat)
    (message : Option String) (new_id : Nat) : Option DB :=
  match get_order db order_id with
  | none => none
  | some order =>
    if order.status ≠ .searching then none
    else if (db.bids.find? (fun b =>
        b.order_id == order_id && b.driver_id == driver_id)).isSome then none
    else some { db with bids := db.bids ++
      [{ id := new_id, order_id := order_id, driver_id := driver_id,
         proposed_price := price, message := message, status := .pending }] }

/-- `routes/bids.py: create_bid`: verification gate, order existence and
status, own-order check, duplicate check (any existing bid row by this
driver on this order), cargo-capacity check, then `crud.create_bid`. -/
def route_create_bid (db : DB) (driver : Actor) (order_id : Nat) (price : Rat)
    (message : Option String) (new_id : Nat) : Except PlaceBidError DB :=
  match get_driver_profile db driver.id with
  | none => .error .driver_not_verified
  | some profile =>
    if profile.verification_status ≠ .verified then .error .driver_not_verified
    else
      match get_order db order_id with
      | none => .error .order_not_found
      | some order =>
        if order.status ≠ .searching then .error .order_not_open
        else if order.client_id = driver.id then .error .own_order
        else if (db.bids.find? (fun b =>
            b.order_id == order_id && b.driver_id == driver.id)).isSome then
          .error .already_bid
        else if order.cargo_weight > profile.carrying_capacity ∨
            order.cargo_volume > profile.volume then
          .error .over_capacity
        else
          match crud_create_bid db order_id driver.id price message new_id with
          | none => .error .crud_rejected
          | some db' => .ok db'

/-- The conjunction of conditions under which `route_create_bid` succeeds:
verified profile, existing `searching` order, not the driver's own order,
*no existing bid row of any status* by this driver on this order, and cargo
within capacity. -/
def PlaceBidOk (db : DB) (driver : Actor) (order_id : Nat) : Prop :=
  ∃ profile order,
    get_driver_profile db driver.id = some profile ∧
    profile.verification_status = VerificationStatus.verified ∧
    get_order db order_id = some order ∧
    order.status = OrderStatus.searching ∧
    order.client_id ≠ driver.id ∧
    db.bids.find? (fun b => b.order_id == order_id && b.driver_id == driver.id)
      = none ∧
    order.cargo_weight ≤ profile.carrying_capacity ∧
    order.cargo_volume ≤ profile.volume

theorem route_create_bid_ok_inv (db : DB) (driver : Actor) (order_id : Nat)
    (price : Rat) (message : Option String) (new_id : Nat) (db' : DB)
    (h : route_create_bid db driver order_id price message new_id = .ok db') :
    PlaceBidOk db driver order_id ∧
    db' = { db with bids := db.bids ++
      [{ id := new_id, order_id := order_id, driver_id := driver.id,
         proposed_price := price, message := message,
         status := BidStatus.pending }] } := by
  unfold route_create_bid at h
  split at h
  next => cases h
  next profile hpr =>
    split at h
    next => cases h
    next hv =>
      split at h
      next => cases h
      next order hord =>
        split at h
        next => cases h
        next hst =>
          split at h
          next => cases h
          next hown =>
            split at h
            next => cases h
            next hdup =>
              split at h
              next => cases h
              next hcap =>
                split at h
                next => cases h
                next db'' hcrud =>
                  injection h with h'
                  subst h'
                  simp only [crud_create_bid, hord] at hcrud
                  rw [if_neg hst, if_neg (by simpa using hdup)] at hcrud
                  injection hcrud with h''
                  refine ⟨⟨profile, order, hpr, not_ne_iff.mp hv, hord,
                    not_ne_iff.mp hst, hown, ?_, ?_, ?_⟩, h''.symm⟩
                  · exact Option.not_isSome_iff_eq_none.mp (by simpa using hdup)
                  · exact not_lt.mp (not_or.mp hcap).1
                  · exact not_lt.mp (not_or.mp hcap).2

theorem route_create_bid_ok_of (db : DB) (driver : Actor) (order_id : Nat)
    (price : Rat) (message : Option String) (new_id : Nat)
    (hok : PlaceBidOk db driver order_id) :
    route_create_bid db driver order_id price message new_id
      = .ok { db with bids := db.bids ++
        [{ id := new_id, order_id := order_id, driver_id := driver.id,
           proposed_price := price, message := message,
           status := BidStatus.pending }] } := by
  obtain ⟨profile, order, hpr, hv, hord, hst, hown, hdup, hw, hvol⟩ := hok
  simp only [route_create_bid, crud_create_bid, hpr, hord, hv, hst, hdup, hown,
    not_lt.mpr hw, not_lt.mpr hvol]
  simp

/-- Verified driver 202 with generous capacity (10 t, 10 m³). -/
def profC3 : DriverProfile :=
  { user_id := 202, carrying_capacity := 10, volume := 10,
    verification_status := .verified, current_location_lat := none,
    current_location_lng := none, is_online := false }

/-- Driver 202's earlier bid on order 1, since cancelled by the driver. -/
def bidC3 : Bid :=
  { id := 1, order_id := 1, driver_id := 202, proposed_price := 80,
    message := none, status := .cancelled }

/-- Store where driver 202's only bid on the searching order 1 is
`cancelled` and the driver is otherwise fully eligible. -/
def dbC3 : DB :=
  { orders := [orderC1], bids := [bidC3], profiles := [profC3], locations := [] }

/-- Driver 202 as route caller. -/
def driverC3 : Actor := { id := 202, role := .driver }

/-- C3 counterexample: the claim says a driver whose only prior bid on the
order is `cancelled` may place a new bid.  False: the duplicate query in
both the route and `crud.create_bid` filters only on `order_id` and
`driver_id`, so the cancelled row still blocks, with the duplicate
rejection. -/
theorem C3_counterexample :
    (get_bid dbC3 1).map Bid.status = some BidStatus.cancelled
    ∧ route_create_bid dbC3 driverC3 1 95 none 2
        = .error PlaceBidError.already_bid := by
  exact ⟨by rfl, by rfl⟩

/-- C3 (amended): PlaceBid succeeds — appending exactly one new `pending`
bid — iff the order exists in `searching`, the driver is not the order's
client, the driver's profile is `verified`, the driver has **no existing
bid row of any status** on this order (a `cancelled` prior bid also
blocks), and cargo weight and volume are within capacity; and each
violation yields its specific rejection: unverified, order-not-open,
duplicate, over-capacity (the latter regardless of the offered price). -/
theorem C3_place_bid_gate (db : DB) (driver : Actor) (order_id : Nat)
    (price : Rat) (message : Option String) (new_id : Nat) :
    ((∃ db', route_create_bid db driver order_id price message new_id = .ok db')
        ↔ PlaceBidOk db driver order_id)
    ∧ (∀ db', route_create_bid db driver order_id price message new_id = .ok db' →
        db' = { db with bids := db.bids ++
          [{ id := new_id, order_id := order_id, driver_id := driver.id,
             proposed_price := price, message := message,
             status := BidStatus.pending }] })
    ∧ (∀ profile, get_driver_profile db driver.id = some profile →
        profile.verification_status ≠ VerificationStatus.verified →
        route_create_bid db driver order_id price message new_id
          = .error PlaceBidError.driver_not_verified)
    ∧ (∀ profile order, get_driver_profile db driver.id = some profile →
        profile.verification_status = VerificationStatus.verified →
        get_order db order_id = some order →
        order.status ≠ OrderStatus.searching →
        route_create_bid db driver order_id price message new_id
          = .error PlaceBidError.order_not_open)
    ∧ (∀ profile order, get_driver_profile db driver.id = some profile →
        profile.verification_status = VerificationStatus.verified →
        get_order db order_id = some order →
        order.status = OrderStatus.searching →
        order.client_id ≠ driver.id →
        (db.bids.find? (fun b =>
          b.order_id == order_id && b.driver_id == driver.id)).isSome →
        route_create_bid db driver order_id price message new_id
          = .error PlaceBidError.already_bid)
    ∧ (∀ profile order, get_driver_profile db driver.id = some profile →
        profile.verification_status = VerificationStatus.verified →
        get_order db order_id = some order →
        order.status = OrderStatus.searching →
        order.client_id ≠ driver.id →
        db.bids.find? (fun b =>
          b.order_id == order_id && b.driver_id == driver.id) = none →
        (order.cargo_weight > profile.carrying_capacity ∨
          order.cargo_volume > profile.volume) →
        route_create_bid db driver order_id price message new_id
          = .error PlaceBidError.over_capacity) := by
  refine ⟨⟨?_, ?_⟩, ?_, ?_, ?_, ?_, ?_⟩
  · rintro ⟨db', h⟩
    exact (route_create_bid_ok_inv db driver order_id price message new_id db' h).1
  · intro hok
    exact ⟨_, route_create_bid_ok_of db driver order_id price message new_id hok⟩
  · intro db' h
    exact (route_create_bid_ok_inv db driver order_id price message new_id db' h).2
  · intro profile hpr hv
    simp only [route_create_bid, hpr]
    rw [if_pos hv]
  · intro profile order hpr hv hord hst
    simp only [route_create_bid, hpr, hord]
    rw [if_neg (by simp [hv]), if_pos hst]
  · intro profile order hpr hv hord hst hown hdup
    simp only [route_create_bid, hpr, hord]
    rw [if_neg (by simp [hv]), if_neg (by simp [hst]), if_neg hown, if_pos hdup]
  · intro profile order hpr hv hord hst hown hdup hcap
    simp only [route_create_bid, hpr, hord]
    rw [if_neg (by simp [hv]), if_neg (by simp [hst]), if_neg hown,
      if_neg (by simp [hdup]), if_pos hcap]

/-- Store where driver 202 is fully eligible to bid on order 1. -/
def dbC3W : DB :=
  { orders := [orderC1], bids := [], profiles := [profC3], locations := [] }

/-- Witness for C3: a concrete successful PlaceBid through the gate. -/
theorem C3_witness :
    ∃ db', route_create_bid dbC3W driverC3 1 95 none 1 = .ok db' :=
  (C3_place_bid_gate dbC3W driverC3 1 95 none 1).1.mpr
    ⟨profC3, orderC1, by rfl, by rfl, by rfl, by rfl,
      by norm_num [orderC1, driverC3], by rfl,
      by norm_num [orderC1, profC3], by norm_num [orderC1, profC3]⟩

/- ## Claim C5: CancelOrder (`routes/orders.py: cancel_order`, `crud.cancel_order`) -/

/-- `crud.cancel_order`: set the order's status to `cancelled` and set
**every** bid row on the order — whatever its status — to `cancelled`
(the loop iterates over all bids of the order and writes
`BidStatus.CANCELLED`, not `REJECTED`). -/
def cancel_order (db : DB) (order_id : Nat) : Option DB :=
  match get_order db order_id with
  | none => none
  | some _ =>
    some { db with
      orders := updateFirst (fun o => o.id == order_id)
        (fun o => { o with status := .cancelled }) db.orders,
      bids := db.bids.map (fun b =>
        if b.order_id == order_id then { b with status := .cancelled } else b) }

/-- Failures of `routes/orders.py: cancel_order`. -/
inductive CancelOrderError where
  | order_not_found | forbidden | not_cancellable
deriving DecidableEq, Repr

/-- `routes/orders.py: cancel_order`: order exists; a client caller must own
the order and a driver caller must be its assigned driver; the status is
only required to differ from `completed` and `cancelled` (so `draft`,
`unloading` and `paid` all pass); then `crud.cancel_order`. -/
def route_cancel_order (db : DB) (actor : Actor) (order_id : Nat) :
    Except CancelOrderError DB :=
  match get_order db order_id with
  | none => .error .order_not_found
  | some order =>
    if actor.role = .client ∧ order.client_id ≠ actor.id then .error .forbidden
    else if actor.role = .driver ∧ order.driver_id ≠ some actor.id then
      .error .forbidden
    else if order.status = .completed ∨ order.status = .cancelled then
      .error .not_cancellable
    else
      match cancel_order db order_id with
      | none => .error .order_not_found
      | some db' => .ok db'

/-- The effect of a successful cancel: the order becomes `cancelled` and
every bid row on it — of any previous status — becomes `cancelled`; bids
of other orders are untouched. -/
def CancelEffects (db : DB) (order_id : Nat) (db' : DB) : Prop :=
  (∀ o0, get_order db order_id = some o0 →
      get_order db' order_id = some { o0 with status := OrderStatus.cancelled }) ∧
  db'.bids.length = db.bids.length ∧
  (∀ (i : Nat) (bi : Bid), db.bids[i]? = some bi →
      db'.bids[i]? = some (if bi.order_id = order_id
        then { bi with status := BidStatus.cancelled } else bi))

theorem route_cancel_order_ok_inv (db : DB) (actor : Actor) (order_id : Nat)
    (db' : DB) (h : route_cancel_order db actor order_id = .ok db') :
    ∃ o0, get_order db order_id = some o0 ∧
      ¬(actor.role = .client ∧ o0.client_id ≠ actor.id) ∧
      ¬(actor.role = .driver ∧ o0.driver_id ≠ some actor.id) ∧
      o0.status ≠ OrderStatus.completed ∧ o0.status ≠ OrderStatus.cancelled ∧
      db' = { db with
        orders := updateFirst (fun o => o.id == order_id)
          (fun o => { o with status := OrderStatus.cancelled }) db.orders,
        bids := db.bids.map (fun b =>
          if b.order_id == order_id then { b with status := BidStatus.cancelled }
          else b) } := by
  unfold route_cancel_order at h
  split at h
  next => cases h
  next o0 hord =>
    split at h
    next => cases h
    next h1 =>
      split at h
      next => cases h
      next h2 =>
        split at h
        next => cases h
        next h3 =>
          split at h
          next => cases h
          next db'' hc =>
            injection h with h'
            subst h'
            simp only [cancel_order, hord] at hc
            injection hc with h''
            exact ⟨o0, hord, h1, h2, (not_or.mp h3).1, (not_or.mp h3).2, h''.symm⟩

/-- A paid order with an assigned driver (201) and two bids: the accepted
one and a still-pending one. -/
def orderC5 : Order := { orderC1 with status := .paid, driver_id := some 201 }

/-- The accepted bid of driver 201 on order 1. -/
def bidC5A : Bid :=
  { id := 1, order_id := 1, driver_id := 201, proposed_price := 90,
    message := none, status := .accepted }

/-- A bid of driver 202 on order 1 that is still pending. -/
def bidC5B : Bid :=
  { id := 2, order_id := 1, driver_id := 202, proposed_price := 95,
    message := none, status := .pending }

/-- Store with the paid order and its two bids. -/
def dbC5 : DB :=
  { orders := [orderC5], bids := [bidC5A, bidC5B], profiles := [], locations := [] }

/-- The store after cancelling order 1 (computed by hand; checked against
`route_cancel_order` below). -/
def dbC5' : DB :=
  { orders := [{ orderC5 with status := .cancelled }],
    bids := [{ bidC5A with status := .cancelled },
             { bidC5B with status := .cancelled }],
    profiles := [], locations := [] }

/-- C5 counterexample: the claim says CancelOrder succeeds only from
`searching`/`driver_assigned`/`loading`/`en_route` and turns pending bids
into `rejected` while leaving non-pending bids unchanged.  False three
times over: cancelling a `paid` order succeeds (the route only excludes
`completed` and `cancelled`), the pending bid 2 becomes `cancelled` (not
`rejected`), and the accepted bid 1 is not left unchanged but also becomes
`cancelled`. -/
theorem C5_counterexample :
    (get_order dbC5 1).map Order.status = some OrderStatus.paid
    ∧ route_cancel_order dbC5 clientActor 1 = .ok dbC5'
    ∧ (get_bid dbC5' 2).map Bid.status = some BidStatus.cancelled
    ∧ (get_bid dbC5' 1).map Bid.status = some BidStatus.cancelled := by
  exact ⟨by rfl, by rfl, by rfl, by rfl⟩

/-- C5 (amended): CancelOrder succeeds — for an authorised caller — exactly
when the order's status is neither `completed` nor `cancelled` (so also
from `draft`, `unloading` and `paid`); on success the order's status
becomes `cancelled` and **every** bid on the order, of any previous status,
becomes `cancelled` (none is set to `rejected`); bids of other orders are
untouched. -/
theorem C5_cancel_order_behaviour (db : DB) (actor : Actor) (order_id : Nat) :
    ((∃ db', route_cancel_order db actor order_id = .ok db')
      ↔ ∃ o0, get_order db order_id = some o0 ∧
          ¬(actor.role = .client ∧ o0.client_id ≠ actor.id) ∧
          ¬(actor.role = .driver ∧ o0.driver_id ≠ some actor.id) ∧
          o0.status ≠ OrderStatus.completed ∧ o0.status ≠ OrderStatus.cancelled)
    ∧ (∀ db', route_cancel_order db actor order_id = .ok db' →
        CancelEffects db order_id db') := by
  constructor
  · constructor
    · rintro ⟨db', h⟩
      obtain ⟨o0, hord, h1, h2, h3, h4, _⟩ :=
        route_cancel_order_ok_inv db actor order_id db' h
      exact ⟨o0, hord, h1, h2, h3, h4⟩
    · rintro ⟨o0, hord, h1, h2, h3, h4⟩
      refine ⟨{ db with
          orders := updateFirst (fun o => o.id == order_id)
            (fun o => { o with status := OrderStatus.cancelled }) db.orders,
          bids := db.bids.map (fun b =>
            if b.order_id == order_id then { b with status := BidStatus.cancelled }
            else b) }, ?_⟩
      simp only [route_cancel_order, cancel_order, hord]
      rw [if_neg h1, if_neg h2, if_neg (not_or.mpr ⟨h3, h4⟩)]
  · intro db' h
    obtain ⟨o0, hord, _, _, _, _, hdb⟩ :=
      route_cancel_order_ok_inv db actor order_id db' h
    subst hdb
    refine ⟨?_, List.length_map _ _, ?_⟩
    · intro o1 ho1
      rw [hord] at ho1
      injection ho1 with e
      subst e
      exact find?_updateFirst_self (fun o : Order => o.id == order_id)
        (fun o => { o with status := OrderStatus.cancelled }) db.orders
        (fun a => rfl) o0 hord
    · intro i bi hbi
      show (List.map _ db.bids)[i]? = _
      rw [List.getElem?_map, hbi]
      by_cases hc : bi.order_id = order_id <;> simp [hc]

/-- Witness for C5 at the concrete paid order. -/
theorem C5_witness : CancelEffects dbC5 1 dbC5' :=
  (C5_cancel_order_behaviour dbC5 clientActor 1).2 dbC5' (by rfl)

/- ## Connection registry (`app/websocket_manager.py`) -/

/-- `ConnectionManager`'s mutable state.  Connections are identified by
`Nat` tokens; each Python dict becomes an association list (insertion
order preserved, as in Python), each `defaultdict(list)` value is the
insertion-ordered connection list. -/
structure ConnManager where
  chat_connections : List (Nat × List Nat)
  tracking_connections : List (Nat × List Nat)
  driver_tracking_sockets : List (Nat × Nat)
  admin_connections : List Nat
  user_connections : List (Nat × List Nat)
  max_connections_per_user : Nat
deriving DecidableEq, Repr

/-- `ConnectionManager.__init__`: empty maps and the cap of 5. -/
def ConnManager.init : ConnManager :=
  { chat_connections := [], tracking_connections := [],
    driver_tracking_sockets := [], admin_connections := [],
    user_connections := [], max_connections_per_user := 5 }

/-- `connect_user`: when the user already holds at least
`max_connections_per_user` connections, the oldest (`list.pop(0)`) is
dropped and closed before the new connection is appended.  Returns the new
state and the evicted (closed) connection, if any. -/
def connect_user (m : ConnManager) (user_id conn : Nat) :
    ConnManager × Option Nat :=
  let conns := lookupD m.user_connections user_id
  let evicted := if conns.length ≥ m.max_connections_per_user
    then conns.head? else none
  let conns1 := if conns.length ≥ m.max_connections_per_user
    then conns.tail else conns
  ({ m with
      user_connections := setA user_id (conns1 ++ [conn]) m.user_connections },
   evicted)

/-- The remove-then-clean-up pattern `disconnect_user` and
`disconnect_chat` both perform inline on their map: if the key is present,
drop the connection from its list (Python `list.remove`, guarded by a
membership test) and delete the entry once the list is empty. -/
def removeConn (d : List (Nat × List Nat)) (k conn : Nat) :
    List (Nat × List Nat) :=
  match lookupA k d with
  | none => d
  | some conns =>
    if (if conn ∈ conns then conns.erase conn else conns) = [] then delA k d
    else setA k (if conn ∈ conns then conns.erase conn else conns) d

/-- `disconnect_user`: drop the connection from the user's entry; delete
the entry once the list is empty. -/
def disconnect_user (m : ConnManager) (conn user_id : Nat) : ConnManager :=
  { m with user_connections := removeConn m.user_connections user_id conn }

/-- `connect_chat` = `connect_user` followed by appending the connection to
the order's room list (creating the room entry when absent). -/
def connect_chat (m : ConnManager) (order_id user_id conn : Nat) :
    ConnManager × Option Nat :=
  let r := connect_user m user_id conn
  let room := lookupD r.1.chat_connections order_id
  ({ r.1 with
      chat_connections := setA order_id (room ++ [conn]) r.1.chat_connections },
   r.2)

/-- `disconnect_chat` = `disconnect_user` followed by dropping the
connection from the room's list and deleting the room entry once empty. -/
def disconnect_chat (m : ConnManager) (conn order_id user_id : Nat) :
    ConnManager :=
  let m1 := disconnect_user m conn user_id
  { m1 with chat_connections := removeConn m1.chat_connections order_id conn }

/-- One iteration of `broadcast_chat_message`'s cleanup loop for a dead
connection: scan `user_connections` in insertion order for the first user
whose set holds it, and `disconnect_chat` there (Python `break`s after the
first hit); a connection registered to no user is left alone. -/
def bccStep (order_id : Nat) (acc : ConnManager) (c : Nat) : ConnManager :=
  match acc.user_connections.find? (fun p => p.2.contains c) with
  | some p => disconnect_chat acc c order_id p.1
  | none => acc

/-- `broadcast_chat_message(order_id, message, exclude_user_id)`: send to
every connection currently in the room — the `exclude_user_id` parameter
is accepted but never consulted by the implementation — catching send
failures per connection, then run the cleanup loop over the failed ones.
Returns the new state and the list of connections that received the
message; `fails` says which connections' `send_json` raises. -/
def broadcast_chat_message (m : ConnManager) (fails : Nat → Bool)
    (order_id : Nat) (exclude_user_id : Option Nat) :
    ConnManager × List Nat :=
  match lookupA order_id m.chat_connections with
  | none => (m, [])
  | some conns =>
    let delivered := conns.filter (fun c => !(fails c))
    let disconnected := conns.filter (fun c => fails c)
    (disconnected.foldl (bccStep order_id) m, delivered)

/-- `send_to_user`: send to every connection of the user, catching failures
per connection, then `disconnect_user` each failed one. -/
def send_to_user (m : ConnManager) (fails : Nat → Bool) (user_id : Nat) :
    ConnManager × List Nat :=
  match lookupA user_id m.user_connections with
  | none => (m, [])
  | some conns =>
    let delivered := conns.filter (fun c => !(fails c))
    let disconnected := conns.filter (fun c => fails c)
    (disconnected.foldl (fun acc c => disconnect_user acc c user_id) m, delivered)

/- ## Claim C4: room broadcast with an excluded user -/

/-- Room 1 holds connections 10 (user 1) and 20 (user 2). -/
def mgrC4 : ConnManager :=
  { chat_connections := [(1, [10, 20])], tracking_connections := [],
    driver_tracking_sockets := [], admin_connections := [],
    user_connections := [(1, [10]), (2, [20])],
    max_connections_per_user := 5 }

/-- C4: the claim says no connection of the excluded user receives the
broadcast.  The implementation accepts `exclude_user_id` but never reads
it: broadcasting to room 1 while excluding user 1 still delivers to
user 1's connection 10 (as well as to 20), and the registry is
unchanged. -/
theorem C4_exclusion_ignored :
    (broadcast_chat_message mgrC4 (fun _ => false) 1 (some 1)).2 = [10, 20]
    ∧ (broadcast_chat_message mgrC4 (fun _ => false) 1 (some 1)).1 = mgrC4 := by
  exact ⟨by rfl, by rfl⟩

theorem lookupA_setA_self {β : Type u} (k : Nat) (v : β) (l : List (Nat × β)) :
    lookupA k (setA k v l) = some v := by
  induction l with
  | nil => simp [setA, lookupA]
  | cons p rest ih =>
    obtain ⟨k', v'⟩ := p
    cases h : (k' == k) with
    | true => simp [setA, lookupA, h]
    | false => simp [setA, lookupA, h, ih]

/- ## Claim C7: the per-user connection cap -/

/-- C7: `connect_user` keeps every user at 5 connections or fewer (given
the configured cap of 5 and at most 5 beforehand); and a user exactly at
the cap has the oldest connection evicted and closed — the registered list
becomes the four younger survivors plus the newcomer: exactly 5, newest
included. -/
theorem C7_connection_cap (m : ConnManager) (user_id conn : Nat)
    (hmax : m.max_connections_per_user = 5)
    (hle : (lookupD m.user_connections user_id).length ≤ 5) :
    (lookupD (connect_user m user_id conn).1.user_connections user_id).length ≤ 5
    ∧ ((lookupD m.user_connections user_id).length = 5 →
      (connect_user m user_id conn).2 = (lookupD m.user_connections user_id).head?
      ∧ lookupD (connect_user m user_id conn).1.user_connections user_id
          = (lookupD m.user_connections user_id).tail ++ [conn]
      ∧ (lookupD (connect_user m user_id conn).1.user_connections user_id).length
          = 5
      ∧ conn ∈ lookupD (connect_user m user_id conn).1.user_connections user_id) := by
  have hset : lookupD (connect_user m user_id conn).1.user_connections user_id
      = (if (lookupD m.user_connections user_id).length ≥ m.max_connections_per_user
         then (lookupD m.user_connections user_id).tail
         else lookupD m.user_connections user_id) ++ [conn] := by
    simp only [connect_user, lookupD, lookupA_setA_self, Option.getD_some]
  have hev : (connect_user m user_id conn).2
      = (if (lookupD m.user_connections user_id).length ≥ m.max_connections_per_user
         then (lookupD m.user_connections user_id).head? else none) := by
    simp only [connect_user]
  constructor
  · rw [hset, hmax]
    by_cases hge : (lookupD m.user_connections user_id).length ≥ 5
    · rw [if_pos hge, List.length_append, List.length_tail]
      simp only [List.length_singleton]
      omega
    · rw [if_neg hge, List.length_append]
      simp only [List.length_singleton]
      omega
  · intro h5
    have hge : (lookupD m.user_connections user_id).length ≥ 5 := by omega
    refine ⟨?_, ?_, ?_, ?_⟩
    · rw [hev, hmax, if_pos hge]
    · rw [hset, hmax, if_pos hge]
    · rw [hset, hmax, if_pos hge, List.length_append, List.length_tail]
      simp only [List.length_singleton]
      omega
    · rw [hset, hmax, if_pos hge]
      exact List.mem_append_right _ (List.mem_singleton_self conn)

/-- A user at the cap: user 1 holds connections 10..14, connection 10 being
the oldest. -/
def mgrC7 : ConnManager :=
  { chat_connections := [], tracking_connections := [],
    driver_tracking_sockets := [], admin_connections := [],
    user_connections := [(1, [10, 11, 12, 13, 14])],
    max_connections_per_user := 5 }

/-- Witness for C7: user 1's sixth connection evicts the oldest (10) and
leaves exactly [11, 12, 13, 14, 15] registered. -/
theorem C7_witness :
    (lookupD (connect_user mgrC7 1 15).1.user_connections 1).length ≤ 5
    ∧ ((lookupD mgrC7.user_connections 1).length = 5 →
      (connect_user mgrC7 1 15).2 = (lookupD mgrC7.user_connections 1).head?
      ∧ lookupD (connect_user mgrC7 1 15).1.user_connections 1
          = (lookupD mgrC7.user_connections 1).tail ++ [15]
      ∧ (lookupD (connect_user mgrC7 1 15).1.user_connections 1).length = 5
      ∧ 15 ∈ lookupD (connect_user mgrC7 1 15).1.user_connections 1) :=
  C7_connection_cap mgrC7 1 15 (by rfl) (by decide)

/- ## Claim C6: disconnect cleanup and room teardown -/

theorem lookupA_delA_self {β : Type u} (k : Nat) (l : List (Nat × β)) :
    lookupA k (delA k l) = none := by
  induction l with
  | nil => rfl
  | cons p rest ih =>
    obtain ⟨k', v'⟩ := p
    cases h : (k' == k) with
    | true => simp [delA, lookupA, h, ih]
    | false => simp [delA, lookupA, h, ih]

theorem removeConn_not_mem (d : List (Nat × List Nat)) (k conn : Nat)
    (h : (lookupD d k).count conn ≤ 1) :
    conn ∉ lookupD (removeConn d k conn) k := by
  cases hl : lookupA k d with
  | none => simp [removeConn, hl, lookupD]
  | some conns =>
    have hrem : conn ∉ (if conn ∈ conns then conns.erase conn else conns) := by
      by_cases hmem : conn ∈ conns
      · rw [if_pos hmem]
        have hcount : conns.count conn ≤ 1 := by
          simpa [lookupD, hl] using h
        have hpos : 0 < conns.count conn := List.count_pos_iff.mpr hmem
        have hz : (conns.erase conn).count conn = 0 := by
          rw [List.count_erase_self]
          omega
        exact List.count_eq_zero.mp hz
      · rw [if_neg hmem]
        exact hmem
    simp only [removeConn, hl]
    by_cases hnil : (if conn ∈ conns then conns.erase conn else conns) = []
    · rw [if_pos hnil]
      simp [lookupD, lookupA_delA_self]
    · rw [if_neg hnil]
      simpa [lookupD, lookupA_setA_self] using hrem

theorem removeConn_lookup_none (d : List (Nat × List Nat)) (k conn : Nat)
    (conns : List Nat) (hl : lookupA k d = some conns)
    (hempty : conns.erase conn = []) :
    lookupA k (removeConn d k conn) = none := by
  have h1 : (if conn ∈ conns then conns.erase conn else conns) = [] := by
    by_cases hmem : conn ∈ conns
    · rw [if_pos hmem]
      exact hempty
    · rw [if_neg hmem]
      rw [List.erase_of_not_mem hmem] at hempty
      exact hempty
  simp only [removeConn, hl]
  rw [if_pos h1]
  exact lookupA_delA_self k d

/-- A user at the cap whose *oldest* connection (10) also sits in chat
room 7. -/
def mgrC6 : ConnManager :=
  { chat_connections := [(7, [10])], tracking_connections := [],
    driver_tracking_sockets := [], admin_connections := [],
    user_connections := [(1, [10, 11, 12, 13, 14])],
    max_connections_per_user := 5 }

/-- C6 counterexample: the claim says a connection removed by forced
eviction belongs to no membership map afterwards.  False: `connect_user`'s
eviction only pops the user-set entry and closes the socket — the evicted
connection 10 is gone from user 1's set but still listed in chat room 7. -/
theorem C6_counterexample :
    (connect_user mgrC6 1 15).2 = some 10
    ∧ 10 ∉ lookupD (connect_user mgrC6 1 15).1.user_connections 1
    ∧ 10 ∈ lookupD (connect_user mgrC6 1 15).1.chat_connections 7 := by
  exact ⟨by rfl, by decide, by decide⟩

/-- C6 (amended): an *explicit* `disconnect_chat` removes the connection
from the user's set and from the chat room; once the last connection
leaves, the room's entry is deleted from the registry; and a broadcast to
an absent room is a no-op (state unchanged, nothing delivered), not an
error.  Forced eviction in `connect_user`, by contrast, touches only the
user's set: the chat-room and tracking maps are left exactly as they
were, so an evicted connection can linger there. -/
theorem C6_disconnect_cleanup (m : ConnManager) (conn order_id user_id : Nat) :
    ((lookupD m.user_connections user_id).count conn ≤ 1 →
      conn ∉ lookupD (disconnect_chat m conn order_id user_id).user_connections
        user_id)
    ∧ ((lookupD m.chat_connections order_id).count conn ≤ 1 →
      conn ∉ lookupD (disconnect_chat m conn order_id user_id).chat_connections
        order_id)
    ∧ (∀ room, lookupA order_id m.chat_connections = some room →
      room.erase conn = [] →
      lookupA order_id
        (disconnect_chat m conn order_id user_id).chat_connections = none)
    ∧ (∀ fails ex, lookupA order_id m.chat_connections = none →
      broadcast_chat_message m fails order_id ex = (m, []))
    ∧ (connect_user m user_id conn).1.chat_connections = m.chat_connections
    ∧ (connect_user m user_id conn).1.tracking_connections
        = m.tracking_connections := by
  have huser : (disconnect_chat m conn order_id user_id).user_connections
      = removeConn m.user_connections user_id conn := rfl
  have hchat : (disconnect_chat m conn order_id user_id).chat_connections
      = removeConn m.chat_connections order_id conn := rfl
  refine ⟨?_, ?_, ?_, ?_, rfl, rfl⟩
  · intro h
    rw [huser]
    exact removeConn_not_mem m.user_connections user_id conn h
  · intro h
    rw [hchat]
    exact removeConn_not_mem m.chat_connections order_id conn h
  · intro room hl hempty
    rw [hchat]
    exact removeConn_lookup_none m.chat_connections order_id conn room hl hempty
  · intro fails ex hl
    simp only [broadcast_chat_message, hl]

/-- Registry with a single user whose single connection sits in room 7. -/
def mgrC6W : ConnManager :=
  { chat_connections := [(7, [20])], tracking_connections := [],
    driver_tracking_sockets := [], admin_connections := [],
    user_connections := [(1, [20])], max_connections_per_user := 5 }

/-- Witness for C6 at a concrete one-user, one-room registry. -/
theorem C6_witness :
    (20 ∉ lookupD (disconnect_chat mgrC6W 20 7 1).user_connections 1)
    ∧ (20 ∉ lookupD (disconnect_chat mgrC6W 20 7 1).chat_connections 7)
    ∧ lookupA 7 (disconnect_chat mgrC6W 20 7 1).chat_connections = none := by
  obtain ⟨h1, h2, h3, _, _, _⟩ := C6_disconnect_cleanup mgrC6W 20 7 1
  exact ⟨h1 (by decide), h2 (by decide), h3 [20] (by rfl) (by decide)⟩

/- ## Claim C9: broadcast isolation and dead-connection cleanup -/

theorem lookupA_setA_ne {β : Type u} (k k' : Nat) (v : β) (l : List (Nat × β))
    (h : k' ≠ k) : lookupA k' (setA k v l) = lookupA k' l := by
  induction l with
  | nil => simp [setA, lookupA, Ne.symm h]
  | cons p rest ih =>
    obtain ⟨k'', v''⟩ := p
    cases hk : (k'' == k) with
    | true =>
      have : k'' = k := by simpa using hk
      subst this
      simp [setA, lookupA, hk, Ne.symm h]
    | false => simp [setA, lookupA, hk, ih]

theorem lookupA_delA_ne {β : Type u} (k k' : Nat) (l : List (Nat × β))
    (h : k' ≠ k) : lookupA k' (delA k l) = lookupA k' l := by
  induction l with
  | nil => rfl
  | cons p rest ih =>
    obtain ⟨k'', v''⟩ := p
    cases hk : (k'' == k) with
    | true =>
      have : k'' = k := by simpa using hk
      subst this
      simp [delA, lookupA, hk, Ne.symm h, ih]
    | false => simp [delA, lookupA, hk, ih]

theorem lookupA_mem {β : Type u} (k : Nat) (l : List (Nat × β)) (v : β)
    (h : lookupA k l = some v) : (k, v) ∈ l := by
  induction l with
  | nil => cases h
  | cons p rest ih =>
    obtain ⟨k', v'⟩ := p
    cases hk : (k' == k) with
    | true =>
      have hk' : k' = k := by simpa using hk
      subst hk'
      rw [lookupA, if_pos hk] at h
      injection h with hv
      subst hv
      exact List.mem_cons_self _ _
    | false =>
      rw [lookupA, if_neg (by simp [hk])] at h
      exact List.mem_cons_of_mem _ (ih h)

theorem removeConn_sublist (d : List (Nat × List Nat)) (k conn : Nat) :
    List.Sublist (lookupD (removeConn d k conn) k) (lookupD d k) := by
  cases hl : lookupA k d with
  | none => simp [removeConn, hl]
  | some conns =>
    simp only [removeConn, hl]
    by_cases hnil : (if conn ∈ conns then conns.erase conn else conns) = []
    · rw [if_pos hnil]
      simp [lookupD, lookupA_delA_self]
    · rw [if_neg hnil]
      simp only [lookupD, lookupA_setA_self, Option.getD_some, hl]
      by_cases hmem : conn ∈ conns
      · rw [if_pos hmem]
        exact List.erase_sublist conn conns
      · rw [if_neg hmem]

theorem removeConn_preserve (d : List (Nat × List Nat)) (k conn c' u : Nat)
    (hne : c' ≠ conn) (l : List Nat) (hu : lookupA u d = some l)
    (hmem : c' ∈ l) :
    ∃ l', lookupA u (removeConn d k conn) = some l' ∧ c' ∈ l' := by
  cases hl : lookupA k d with
  | none => exact ⟨l, by simp only [removeConn, hl]; exact hu, hmem⟩
  | some conns =>
    by_cases huk : u = k
    · subst huk
      rw [hu] at hl
      injection hl with he
      subst he
      have hc' : c' ∈ (if conn ∈ l then l.erase conn else l) := by
        by_cases hcm : conn ∈ l
        · rw [if_pos hcm]
          exact (List.mem_erase_of_ne hne).mpr hmem
        · rw [if_neg hcm]
          exact hmem
      have hnil : ¬((if conn ∈ l then l.erase conn else l) = []) := by
        intro e
        rw [e] at hc'
        cases hc'
      refine ⟨(if conn ∈ l then l.erase conn else l), ?_, hc'⟩
      simp only [removeConn, hu]
      rw [if_neg hnil]
      exact lookupA_setA_self u _ d
    · refine ⟨l, ?_, hmem⟩
      simp only [removeConn, hl]
      by_cases hnil : (if conn ∈ conns then conns.erase conn else conns) = []
      · rw [if_pos hnil]
        rw [lookupA_delA_ne k u d huk]
        exact hu
      · rw [if_neg hnil]
        rw [lookupA_setA_ne k u _ d huk]
        exact hu

theorem bccStep_room_sublist (order_id : Nat) (acc : ConnManager) (c : Nat) :
    List.Sublist (lookupD (bccStep order_id acc c).chat_connections order_id)
      (lookupD acc.chat_connections order_id) := by
  unfold bccStep
  cases hf : acc.user_connections.find? (fun p => p.2.contains c) with
  | none => exact List.Sublist.refl _
  | some p =>
    show List.Sublist
      (lookupD (removeConn acc.chat_connections order_id c) order_id) _
    exact removeConn_sublist acc.chat_connections order_id c

theorem bccStep_not_mem (order_id : Nat) (acc : ConnManager) (c : Nat)
    (humem : ∃ u l, lookupA u acc.user_connections = some l ∧ c ∈ l)
    (hcount : (lookupD acc.chat_connections order_id).count c ≤ 1) :
    c ∉ lookupD (bccStep order_id acc c).chat_connections order_id := by
  obtain ⟨u, l, hu, hm⟩ := humem
  unfold bccStep
  cases hf : acc.user_connections.find? (fun p => p.2.contains c) with
  | none =>
    exfalso
    have := List.find?_eq_none.mp hf (u, l) (lookupA_mem u _ l hu)
    simp at this
    exact this hm
  | some p =>
    show c ∉ lookupD (removeConn acc.chat_connections order_id c) order_id
    exact removeConn_not_mem acc.chat_connections order_id c hcount

theorem bccStep_preserve_user (order_id : Nat) (acc : ConnManager) (c c' : Nat)
    (hne : c' ≠ c)
    (humem : ∃ u l, lookupA u acc.user_connections = some l ∧ c' ∈ l) :
    ∃ u l, lookupA u (bccStep order_id acc c).user_connections = some l ∧
      c' ∈ l := by
  obtain ⟨u, l, hu, hm⟩ := humem
  unfold bccStep
  cases hf : acc.user_connections.find? (fun p => p.2.contains c) with
  | none => exact ⟨u, l, hu, hm⟩
  | some p =>
    show ∃ u' l', lookupA u' (removeConn acc.user_connections p.1 c) = some l' ∧
      c' ∈ l'
    obtain ⟨l', hl', hm'⟩ :=
      removeConn_preserve acc.user_connections p.1 c c' u hne l hu hm
    exact ⟨u, l', hl', hm'⟩

theorem bcc_fold_preserves_not_mem (order_id : Nat) (ds : List Nat) :
    ∀ (m : ConnManager) (c : Nat),
    c ∉ lookupD m.chat_connections order_id →
    c ∉ lookupD (ds.foldl (bccStep order_id) m).chat_connections order_id := by
  induction ds with
  | nil => intro m c h; exact h
  | cons d rest ih =>
    intro m c h
    simp only [List.foldl_cons]
    exact ih _ c
      (fun hx => h ((bccStep_room_sublist order_id m d).subset hx))

theorem bcc_fold_not_mem (order_id : Nat) (ds : List Nat) :
    ∀ (m : ConnManager) (c : Nat), c ∈ ds → ds.Nodup →
    (∃ u l, lookupA u m.user_connections = some l ∧ c ∈ l) →
    (lookupD m.chat_connections order_id).count c ≤ 1 →
    c ∉ lookupD (ds.foldl (bccStep order_id) m).chat_connections order_id := by
  induction ds with
  | nil => intro m c hc; cases hc
  | cons d rest ih =>
    intro m c hc hnodup humem hcount
    simp only [List.foldl_cons]
    rcases List.mem_cons.mp hc with he | hcrest
    · subst he
      exact bcc_fold_preserves_not_mem order_id rest _ c
        (bccStep_not_mem order_id m c humem hcount)
    · have hne : c ≠ d := by
        intro e
        subst e
        exact (List.nodup_cons.mp hnodup).1 hcrest
      exact ih (bccStep order_id m d) c hcrest (List.nodup_cons.mp hnodup).2
        (bccStep_preserve_user order_id m d c hne humem)
        (le_trans
          ((bccStep_room_sublist order_id m d).count_le c)
          hcount)

/-- An orphaned room entry: connection 10 sits in room 1 but in no user's
set (the state `connect_user`'s eviction produces, cf. C6). -/
def mgrC9 : ConnManager :=
  { chat_connections := [(1, [10])], tracking_connections := [],
    driver_tracking_sockets := [], admin_connections := [],
    user_connections := [], max_connections_per_user := 5 }

/-- C9 counterexample: the claim says every failing connection is removed
from the registry.  False: the cleanup loop finds the user owning the dead
connection by scanning `user_connections`; a connection registered to no
user (such as an evicted one that lingered in the room, cf. C6) is left in
the room's list after its send fails. -/
theorem C9_counterexample :
    (broadcast_chat_message mgrC9 (fun c => c == 10) 1 none).2 = []
    ∧ lookupD (broadcast_chat_message mgrC9
        (fun c => c == 10) 1 none).1.chat_connections 1 = [10] := by
  exact ⟨by rfl, by rfl⟩

/-- C9 (amended): in a broadcast to a room (with distinct connections),
every connection whose send does not fail receives the event even when
other sends fail; each failing connection that is registered in some
user's connection set is removed from the room; but a failing connection
registered to no user set stays in the room.  A send to a user's own
connection set likewise delivers to every non-failing connection.  (Send
failures are consumed by the loop itself — both functions are total and
return normally, never surfacing the failure.) -/
theorem C9_broadcast_isolation (m : ConnManager) (fails : Nat → Bool)
    (order_id : Nat) (ex : Option Nat)
    (hnodup : (lookupD m.chat_connections order_id).Nodup) :
    (∀ c, c ∈ lookupD m.chat_connections order_id → fails c = false →
      c ∈ (broadcast_chat_message m fails order_id ex).2)
    ∧ (∀ c, c ∈ lookupD m.chat_connections order_id → fails c = true →
      (∃ u l, lookupA u m.user_connections = some l ∧ c ∈ l) →
      c ∉ lookupD (broadcast_chat_message m fails order_id ex).1.chat_connections
        order_id)
    ∧ (∀ u c, c ∈ lookupD m.user_connections u → fails c = false →
      c ∈ (send_to_user m fails u).2) := by
  refine ⟨?_, ?_, ?_⟩
  · intro c hc hf
    cases hl : lookupA order_id m.chat_connections with
    | none => simp [lookupD, hl] at hc
    | some conns =>
      have hc' : c ∈ conns := by simpa [lookupD, hl] using hc
      simp only [broadcast_chat_message, hl]
      exact List.mem_filter.mpr ⟨hc', by simp [hf]⟩
  · intro c hc hf humem
    cases hl : lookupA order_id m.chat_connections with
    | none => simp [lookupD, hl] at hc
    | some conns =>
      have hc' : c ∈ conns := by simpa [lookupD, hl] using hc
      simp only [broadcast_chat_message, hl]
      refine bcc_fold_not_mem order_id (conns.filter (fun c => fails c)) m c
        (List.mem_filter.mpr ⟨hc', hf⟩) ?_ humem ?_
      · exact List.Nodup.filter _ (by simpa [lookupD, hl] using hnodup)
      · exact List.nodup_iff_count_le_one.mp hnodup c
  · intro u c hc hf
    cases hl : lookupA u m.user_connections with
    | none => simp [lookupD, hl] at hc
    | some conns =>
      have hc' : c ∈ conns := by simpa [lookupD, hl] using hc
      simp only [send_to_user, hl]
      exact List.mem_filter.mpr ⟨hc', by simp [hf]⟩

/-- Room 1 = {10 (user 1), 20 (user 2)}. -/
def mgrC9W : ConnManager :=
  { chat_connections := [(1, [10, 20])], tracking_connections := [],
    driver_tracking_sockets := [], admin_connections := [],
    user_connections := [(1, [10]), (2, [20])],
    max_connections_per_user := 5 }

/-- Witness for C9: connection 10's send fails, yet 20 still receives the
event and the dead 10 is removed from the room. -/
theorem C9_witness :
    20 ∈ (broadcast_chat_message mgrC9W (fun c => c == 10) 1 none).2
    ∧ 10 ∉ lookupD (broadcast_chat_message mgrC9W
        (fun c => c == 10) 1 none).1.chat_connections 1 := by
  obtain ⟨ha, hb, _⟩ :=
    C9_broadcast_isolation mgrC9W (fun c => c == 10) 1 none (by decide)
  exact ⟨ha 20 (by decide) (by rfl), hb 10 (by decide) (by rfl)
    ⟨1, [10], by rfl, by decide⟩⟩

/- ## Claim C8: location ingestion (`utils.validate_coordinates`, `routes/track.py`) -/

/-- `utils.validate_coordinates`: `-90 <= lat <= 90 and -180 <= lng <= 180`. -/
def validate_coordinates (lat lng : Rat) : Bool :=
  decide (-90 ≤ lat ∧ lat ≤ 90 ∧ -180 ≤ lng ∧ lng ≤ 180)

/-- The reply frame the driver-tracking endpoint sends back for one
`location_update` frame: the `{"type": "error"}` frame on bad coordinates,
else the `location_received` acknowledgement. -/
inductive TrackReply where
  | invalid_coords
  | location_received (location_id : Nat)
deriving DecidableEq, Repr

/-- The payload handed to `manager.broadcast_location` on a valid sample
(the fields the claim speaks about). -/
structure LocationBroadcast where
  driver_id : Nat
  order_id : Option Nat
  lat : Rat
  lng : Rat
deriving DecidableEq, Repr

/-- The driver's current active order: the most recently updated order
assigned to this driver whose status is `driver_assigned`, `loading`,
`en_route` or `unloading` (the `.order_by(updated_at.desc()).first()`
query; the earlier-listed order wins a timestamp tie). -/
def active_order (db : DB) (driver_id : Nat) : Option Order :=
  (db.orders.filter (fun o => o.driver_id == some driver_id &&
    decide (o.status = OrderStatus.driver_assigned ∨
      o.status = OrderStatus.loading ∨
      o.status = OrderStatus.en_route ∨
      o.status = OrderStatus.unloading))).foldl
    (fun acc o => match acc with
      | none => some o
      | some a => if o.updated_at > a.updated_at then some o else acc) none

/-- One iteration of the driver-tracking loop
(`routes/track.py: websocket_track_driver_endpoint`) on a
`location_update` frame: validate the coordinates — on failure reply with
the error frame, leaving the store untouched and emitting no broadcast —
otherwise resolve the active order, append the LocationUpdate row,
overwrite the driver profile's live position and set it online, and emit
the broadcast payload, acknowledging with `location_received`. -/
def handle_location_update (db : DB) (driver_id : Nat) (lat lng : Rat)
    (accuracy speed heading : Option Rat) (new_loc_id : Nat) :
    DB × Option LocationBroadcast × TrackReply :=
  if !(validate_coordinates lat lng) then
    (db, none, .invalid_coords)
  else
    let oid := (active_order db driver_id).map Order.id
    ({ db with
        locations := db.locations ++
          [{ id := new_loc_id, driver_id := driver_id, order_id := oid,
             lat := lat, lng := lng, accuracy := accuracy, speed := speed,
             heading := heading }],
        profiles := updateFirst (fun p => p.user_id == driver_id)
          (fun p =>
            { p with
              current_location_lat := some lat
              current_location_lng := some lng
              is_online := true })
          db.profiles },
     some { driver_id := driver_id, order_id := oid, lat := lat, lng := lng },
     .location_received new_loc_id)

/-- C8: a sample whose lat falls outside [-90, 90] or whose lng falls
outside [-180, 180] is answered with the structured error frame — the
handler is total and returns it rather than raising — and leaves all state
unchanged: the store (LocationUpdate rows and driver profiles, hence the
live position and online flag) is returned exactly as it was, and no
broadcast is emitted. -/
theorem C8_invalid_coords_reject (db : DB) (driver_id : Nat) (lat lng : Rat)
    (accuracy speed heading : Option Rat) (new_loc_id : Nat)
    (h : ¬(-90 ≤ lat ∧ lat ≤ 90 ∧ -180 ≤ lng ∧ lng ≤ 180)) :
    handle_location_update db driver_id lat lng accuracy speed heading new_loc_id
      = (db, none, TrackReply.invalid_coords) := by
  have hv : validate_coordinates lat lng = false := by
    simp only [validate_coordinates, decide_eq_false_iff_not]
    exact h
  simp [handle_location_update, hv]

/-- Witness for C8: driver 201 sends (91, 0) — latitude out of range. -/
theorem C8_witness :
    handle_location_update dbC1 201 91 0 none none none 1
      = (dbC1, none, TrackReply.invalid_coords) :=
  C8_invalid_coords_reject dbC1 201 91 0 none none none 1 (by norm_num)

/- ## Claim C10: order-number generation (`crud.generate_order_number`, `crud.create_order`) -/

/-- The population `string.ascii_uppercase`. -/
def ascii_uppercase : List Char := "ABCDEFGHIJKLMNOPQRSTUVWXYZ".toList

/-- The population `string.digits`. -/
def string_digits : List Char := "0123456789".toList

/-- `crud.generate_order_number` with the eight `random.choices` draws made
explicit (two characters from `ascii_uppercase`, six from `string.digits`),
glued as the f-string "CP" + letters + numbers. -/
def generate_order_number (l1 l2 d1 d2 d3 d4 d5 d6 : Char) : String :=
  String.mk ['C', 'P', l1, l2, d1, d2, d3, d4, d5, d6]

/-- Errors surfacing from `crud.create_order`'s commit. -/
inductive CreateOrderError where
  /-- `orders.order_number` is declared `unique=True` in `models.py`, so
  committing a row whose generated number equals an existing one raises
  `IntegrityError`. -/
  | integrity_error
deriving DecidableEq, Repr

/-- `crud.create_order`: build the row with a freshly generated number —
the code consults no existing numbers and has no retry-on-collision — and
commit; the commit enforces the `order_number` column's unique
constraint. -/
def create_order (db : DB) (client_id : Nat)
    (l1 l2 d1 d2 d3 d4 d5 d6 : Char) (w v pr : Rat) (new_id : Nat) :
    Except CreateOrderError DB :=
  if db.orders.any (fun o => o.order_number
      == generate_order_number l1 l2 d1 d2 d3 d4 d5 d6) then
    .error .integrity_error
  else
    .ok { db with orders := db.orders ++
      [{ id := new_id,
         order_number := generate_order_number l1 l2 d1 d2 d3 d4 d5 d6,
         client_id := client_id, driver_id := none, status := .draft,
         cargo_weight := w, cargo_volume := v, desired_price := pr,
         final_price := none, platform_fee := none, order_amount := none,
         updated_at := 0 }] }

/-- The empty store. -/
def dbC10 : DB := { orders := [], bids := [], profiles := [], locations := [] }

/-- The single order produced by one `create_order` with draws A, B, 1..6. -/
def orderC10 : Order :=
  { id := 1, order_number := "CPAB123456", client_id := 100,
    driver_id := none, status := .draft, cargo_weight := 1,
    cargo_volume := 1, desired_price := 100, final_price := none,
    platform_fee := none, order_amount := none, updated_at := 0 }

/-- The store after one `create_order` with draws A, B, 1..6. -/
def dbC10' : DB :=
  { orders := [orderC10], bids := [], profiles := [], locations := [] }

/-- C10 counterexample: the claim concludes that two orders can be created
with the same order number.  False: the `order_number` column is declared
`unique=True`, so the second commit of the same generated number fails
with `IntegrityError` instead of storing a duplicate (the code indeed
never retries — the failure surfaces). -/
theorem C10_counterexample :
    create_order dbC10 100 'A' 'B' '1' '2' '3' '4' '5' '6' 1 1 100 1
      = .ok dbC10'
    ∧ create_order dbC10' 100 'A' 'B' '1' '2' '3' '4' '5' '6' 1 1 100 2
      = .error CreateOrderError.integrity_error := by
  exact ⟨by rfl, by rfl⟩

/-- C10 (amended): every generated order number is exactly 10 characters —
the literal "CP", two uppercase ASCII letters, six decimal digits — and
`create_order` performs no uniqueness check and no retry-on-collision: it
unconditionally commits the freshly drawn number, succeeding whenever no
stored order carries it; but when the draw collides with a stored number,
the `order_number` column's unique constraint makes the commit fail
(`IntegrityError`), so no duplicate order number is ever stored. -/
theorem C10_order_numbers (db : DB) (client_id : Nat)
    (l1 l2 d1 d2 d3 d4 d5 d6 : Char) (w v pr : Rat) (new_id : Nat)
    (hl1 : l1 ∈ ascii_uppercase) (hl2 : l2 ∈ ascii_uppercase)
    (hd1 : d1 ∈ string_digits) (hd2 : d2 ∈ string_digits)
    (hd3 : d3 ∈ string_digits) (hd4 : d4 ∈ string_digits)
    (hd5 : d5 ∈ string_digits) (hd6 : d6 ∈ string_digits) :
    (generate_order_number l1 l2 d1 d2 d3 d4 d5 d6).length = 10
    ∧ (generate_order_number l1 l2 d1 d2 d3 d4 d5 d6).toList
        = ['C', 'P', l1, l2, d1, d2, d3, d4, d5, d6]
    ∧ l1.isUpper ∧ l2.isUpper
    ∧ d1.isDigit ∧ d2.isDigit ∧ d3.isDigit ∧ d4.isDigit ∧ d5.isDigit
    ∧ d6.isDigit
    ∧ (db.orders.any (fun o => o.order_number
          == generate_order_number l1 l2 d1 d2 d3 d4 d5 d6) = false →
        create_order db client_id l1 l2 d1 d2 d3 d4 d5 d6 w v pr new_id
          = .ok { db with orders := db.orders ++
            [{ id := new_id,
               order_number := generate_order_number l1 l2 d1 d2 d3 d4 d5 d6,
               client_id := client_id, driver_id := none,
               status := OrderStatus.draft, cargo_weight := w,
               cargo_volume := v, desired_price := pr, final_price := none,
               platform_fee := none, order_amount := none,
               updated_at := 0 }] })
    ∧ (db.orders.any (fun o => o.order_number
          == generate_order_number l1 l2 d1 d2 d3 d4 d5 d6) = true →
        create_order db client_id l1 l2 d1 d2 d3 d4 d5 d6 w v pr new_id
          = .error CreateOrderError.integrity_error) := by
  have hupper : ∀ c ∈ ascii_uppercase, c.isUpper := by decide
  have hdigit : ∀ c ∈ string_digits, c.isDigit := by decide
  refine ⟨rfl, rfl, hupper l1 hl1, hupper l2 hl2, hdigit d1 hd1, hdigit d2 hd2,
    hdigit d3 hd3, hdigit d4 hd4, hdigit d5 hd5, hdigit d6 hd6, ?_, ?_⟩
  · intro h
    simp [create_order, h]
  · intro h
    simp [create_order, h]

/-- Witness for C10 at the draws A, B, 1, 2, 3, 4, 5, 6 over the empty
store. -/
theorem C10_witness :
    (generate_order_number 'A' 'B' '1' '2' '3' '4' '5' '6').length = 10
    ∧ (generate_order_number 'A' 'B' '1' '2' '3' '4' '5' '6').toList
        = ['C', 'P', 'A', 'B', '1', '2', '3', '4', '5', '6']
    ∧ Char.isUpper 'A' ∧ Char.isUpper 'B'
    ∧ Char.isDigit '1' ∧ Char.isDigit '2' ∧ Char.isDigit '3'
    ∧ Char.isDigit '4' ∧ Char.isDigit '5' ∧ Char.isDigit '6'
    ∧ (dbC10.orders.any (fun o => o.order_number
          == generate_order_number 'A' 'B' '1' '2' '3' '4' '5' '6') = false →
        create_order dbC10 100 'A' 'B' '1' '2' '3' '4' '5' '6' 1 1 100 1
          = .ok { dbC10 with orders := dbC10.orders ++
            [{ id := 1,
               order_number := generate_order_number 'A' 'B' '1' '2' '3' '4' '5' '6',
               client_id := 100, driver_id := none,
               status := OrderStatus.draft, cargo_weight := 1,
               cargo_volume := 1, desired_price := 100, final_price := none,
               platform_fee := none, order_amount := none,
               updated_at := 0 }] })
    ∧ (dbC10.orders.any (fun o => o.order_number
          == generate_order_number 'A' 'B' '1' '2' '3' '4' '5' '6') = true →
        create_order dbC10 100 'A' 'B' '1' '2' '3' '4' '5' '6' 1 1 100 1
          = .error CreateOrderError.integrity_error) :=
  C10_order_numbers dbC10 100 'A' 'B' '1' '2' '3' '4' '5' '6' 1 1 100 1
    (by decide) (by decide) (by decide) (by decide) (by decide) (by decide)
    (by decide) (by decide)
